import Mathlib

/-!
Verification of the connection-routing, batch-stack, bucket-lookup and
pagination layer of `google/cloud/storage/client.py`.

Pure shallow embedding: Python objects become Lean structures, methods
become functions; a method that can raise returns `Except`, and a raising
method additionally returns the (unchanged) receiver state where the claim
is about the absence of side effects.  Object identity (the `client`
back-reference held by buckets and batches) is modelled by a numeric id
carried by each `Client`.
-/

/-- Errors raised by the Google Cloud HTTP layer
(`google.cloud.exceptions`): `NotFound` is the 404 subclass that
`lookup_bucket` catches; every other status is carried by `httpError`. -/
inductive CloudError where
  | notFound (message : String)
  | conflict (message : String)
  | httpError (status : Nat) (message : String)
  deriving Repr, DecidableEq

/-- Client-layer programmer errors: `ValueError('Connection already set on
client')` from the `_connection` setter, and the `IndexError` underflow from
popping an empty batch stack. -/
inductive ClientError where
  | alreadySet
  | underflow
  deriving Repr, DecidableEq

/-- A recorded batch sub-request (method, path, query params, body). -/
structure BatchRequest where
  method : String
  path : String
  queryParams : List (String × String)
  body : Option String
  deriving Repr, DecidableEq

/-- A demultiplexed batch sub-response: status plus decoded body. -/
structure BatchResponse where
  status : Nat
  body : String
  deriving Repr, DecidableEq

/-- Modelled from the spec: `google.cloud.storage.batch.Batch` (its module is
not part of this excerpt).  A Batch holds the ordered queue of recorded
requests, the parallel list of responses filled in by `submit()`, a sealed
flag set once submitted, and a back-reference (id) to the owning client. -/
structure Batch where
  client : Nat
  requests : List BatchRequest
  responses : List BatchResponse
  submitted : Bool
  deriving Repr, DecidableEq

/-- `Batch(client=self)` — the factory's fresh batch: empty request queue,
no responses, not yet submitted. -/
def Batch.new (clientId : Nat) : Batch :=
  { client := clientId, requests := [], responses := [], submitted := false }

/-- A bucket: back-reference to the owning client (by id), a name (absent
when constructed from an item with no `name` key), and its property dict. -/
structure Bucket where
  client : Nat
  name : Option String
  properties : List (String × String)
  deriving Repr, DecidableEq

/-- `Bucket(client, name)` constructor: properties start empty. -/
def Bucket.new (clientId : Nat) (name : Option String) : Bucket :=
  { client := clientId, name := name, properties := [] }

/-- The storage `Client`: object id, project, the set-once base connection
(identified by a numeric id; `None` until set), and the batch stack
(`_LocalStack`, modelled from the spec as a plain LIFO list, top first). -/
structure Client where
  id : Nat
  project : String
  base_connection : Option Nat
  batch_stack : List Batch
  deriving Repr, DecidableEq

namespace Client

/-- `current_batch` property: the top of the batch stack, or `None` when the
stack is empty (`_LocalStack.top`, modelled from the spec as list head). -/
def current_batch (c : Client) : Option Batch :=
  c.batch_stack.head?

/-- What the `_connection` getter resolves to: the current batch when one is
active, otherwise the base connection slot. -/
inductive Routed where
  | toBatch (b : Batch)
  | toBase (conn : Option Nat)
  deriving Repr, DecidableEq

/-- The `_connection` property getter: returns `current_batch` when it is not
`None`, else `_base_connection`. -/
def connectionGet (c : Client) : Routed :=
  match c.current_batch with
  | some b => Routed.toBatch b
  | none => Routed.toBase c.base_connection

/-- The `_connection` property setter: raises `ValueError` if the base
connection was already set, leaving the client unchanged; otherwise stores
the value.  Returned pair is (client after the call, outcome). -/
def connectionSet (c : Client) (value : Nat) : Client × Except ClientError Unit :=
  if c.base_connection.isSome then
    (c, Except.error ClientError.alreadySet)
  else
    ({ c with base_connection := some value }, Except.ok ())

/-- `_push_batch`: push onto the stack (`_LocalStack.push`, modelled from the
spec as cons). -/
def push_batch (c : Client) (b : Batch) : Client :=
  { c with batch_stack := b :: c.batch_stack }

/-- `_pop_batch`: remove and return the top-most batch; raises `IndexError`
(underflow) when the stack is empty (`_LocalStack.pop`, modelled from the
spec). -/
def pop_batch (c : Client) : Except ClientError (Batch × Client) :=
  match c.batch_stack with
  | [] => Except.error ClientError.underflow
  | b :: rest => Except.ok (b, { c with batch_stack := rest })

/-- `Client.bucket(bucket_name)`: factory constructor, no HTTP request —
returns the bucket bound to this client and the (unchanged) client state. -/
def bucket (c : Client) (bucket_name : String) : Bucket × Client :=
  (Bucket.new c.id (some bucket_name), c)

/-- `Client.batch()`: factory constructor, no HTTP request — returns a fresh
batch bound to this client and the (unchanged) client state. -/
def batch (c : Client) : Batch × Client :=
  (Batch.new c.id, c)

end Client

/-- A single batch-stack operation, for stating the LIFO-sequence claim. -/
inductive BatchOp where
  | push (b : Batch)
  | pop
  deriving Repr

/-- Run a sequence of `_push_batch`/`_pop_batch` calls on a client; `none`
when some pop underflows (the sequence violated LIFO discipline). -/
def applyOps (c : Client) : List BatchOp → Option Client
  | [] => some c
  | BatchOp.push b :: ops => applyOps (c.push_batch b) ops
  | BatchOp.pop :: ops =>
    match c.pop_batch with
    | Except.ok (_, c') => applyOps c' ops
    | Except.error _ => none

/-- The mathematical stack the batch stack should track: cons on push, tail
on pop, `none` on pop-of-empty. -/
def specStack (s : List Batch) : List BatchOp → Option (List Batch)
  | [] => some s
  | BatchOp.push b :: ops => specStack (b :: s) ops
  | BatchOp.pop :: ops =>
    match s with
    | [] => none
    | _ :: t => specStack t ops

/-- A logical API request as issued through a resolved connection. -/
structure ApiReq where
  method : String
  path : String
  deriving Repr, DecidableEq

/-- The connection capability: executes one request and returns the decoded
JSON object (a property dict) or raises a cloud error. -/
def Conn : Type := ApiReq → Except CloudError (List (String × String))

/-- Modelled from the spec: `Bucket.reload` (in `bucket.py`, outside this
excerpt) issues a metadata-fetch GET for the bucket's path through the
client's resolved connection, and on success replaces the bucket's
properties with the decoded response; any connection error propagates. -/
def Bucket.reload (conn : Conn) (b : Bucket) : Except CloudError Bucket :=
  match conn { method := "GET", path := "/b/" ++ b.name.getD "" } with
  | Except.ok props => Except.ok { b with properties := props }
  | Except.error e => Except.error e

namespace Client

/-- `Client.get_bucket(bucket_name)`: constructs `Bucket(self,
name=bucket_name)` then calls `bucket.reload(client=self)` and returns the
bucket.  `conn` is the behaviour of the connection the client resolves for
the call. -/
def get_bucket (c : Client) (conn : Conn) (bucket_name : String) :
    Except CloudError Bucket :=
  (Bucket.new c.id (some bucket_name)).reload conn

/-- `Client.lookup_bucket(bucket_name)`: `get_bucket` wrapped in
`try ... except NotFound: return None`. -/
def lookup_bucket (c : Client) (conn : Conn) (bucket_name : String) :
    Except CloudError (Option Bucket) :=
  match c.get_bucket conn bucket_name with
  | Except.ok b => Except.ok (some b)
  | Except.error (CloudError.notFound _) => Except.ok none
  | Except.error e => Except.error e

end Client

/-- Association-list lookup, the model of Python `dict.get`. -/
def lookupKV (d : List (String × String)) (k : String) : Option String :=
  match d with
  | [] => none
  | (k', v) :: rest => if k' = k then some v else lookupKV rest k

/-- `_item_to_bucket(iterator, item)`: `name = item.get('name')`, build
`Bucket(iterator.client, name)`, then `bucket._set_properties(item)`.  The
iterator argument is represented by the owning client's id. -/
def item_to_bucket (clientId : Nat) (item : List (String × String)) : Bucket :=
  let name := lookupKV item "name"
  let bucket := Bucket.new clientId name
  { bucket with properties := item }

/-- Modelled from the spec: the `HTTPIterator` constructor (in
`google/cloud/iterator.py`, outside this excerpt) records the arguments
`list_buckets` passes it — owning client, endpoint path, item decoder,
initial page token, max results cap and the extra query parameters. -/
structure HTTPIterator where
  client : Nat
  path : String
  item_to_value : Nat → List (String × String) → Bucket
  page_token : Option String
  max_results : Option Nat
  extra_params : List (String × String)

namespace Client

/-- `Client.list_buckets(max_results=None, page_token=None, prefix=None,
projection='noAcl', fields=None)`: builds `extra_params` in source order —
`project` first, then `prefix` if given, then `projection`, then `fields`
if given — and returns the `HTTPIterator` over path `/b` with
`_item_to_bucket` as decoder.  An absent `projection` argument is the
Python default `'noAcl'`, modelled by `Option.getD`. -/
def list_buckets (c : Client) (max_results : Option Nat)
    (page_token : Option String) (prefix_ : Option String)
    (projection : Option String) (fields : Option String) : HTTPIterator :=
  let projectionVal := projection.getD "noAcl"
  let extra_params := [("project", c.project)]
  let extra_params :=
    match prefix_ with
    | some p => extra_params ++ [("prefix", p)]
    | none => extra_params
  let extra_params := extra_params ++ [("projection", projectionVal)]
  let extra_params :=
    match fields with
    | some f => extra_params ++ [("fields", f)]
    | none => extra_params
  { client := c.id, path := "/b", item_to_value := item_to_bucket,
    page_token := page_token, max_results := max_results,
    extra_params := extra_params }

end Client

/-- One page of a listing response: the `items` array and the optional
`nextPageToken`. -/
structure Page where
  items : List String
  nextPageToken : Option String
  deriving Repr, DecidableEq

/-- The paged endpoint as seen by the iterator: a GET with the held
continuation token merged into the query (none on the very first call when
no initial `page_token` was supplied) returns a page. -/
def PageSource : Type := Option String → Page

/-- Modelled from the spec: the Pagination Iterator's mutable state — the
current page's item queue, the held continuation token, and whether a page
has already been fetched (so that exhaustion is only declared after the
first fetch). -/
structure IterState where
  queue : List String
  token : Option String
  started : Bool
  deriving Repr, DecidableEq

/-- The iterator state `list`-style construction starts from: empty queue,
the caller-supplied initial page token, nothing fetched yet. -/
def IterState.initial (page_token : Option String) : IterState :=
  { queue := [], token := page_token, started := false }

/-- Modelled from the spec: the Pagination Iterator's `next()`.  A non-empty
queue dequeues its front.  An empty queue with a held token (or before the
first fetch) fetches the next page through the connection, refills the
queue, captures the new token and retries.  An empty queue with no token
after the first fetch signals end-of-sequence (`some (none, s)`).  `fuel`
bounds the number of page fetches; `none` means fuel ran out, never a
behaviour of the code. -/
def IterState.next (src : PageSource) :
    Nat → IterState → Option (Option String × IterState)
  | fuel, s =>
    match s.queue with
    | i :: rest => some (some i, { s with queue := rest })
    | [] =>
      if s.started ∧ s.token = none then some (none, s)
      else
        match fuel with
        | 0 => none
        | fuel' + 1 =>
          let page := src s.token
          IterState.next src fuel'
            { queue := page.items, token := page.nextPageToken, started := true }

/-- Drain the iterator: the full sequence of yielded items together with the
state at which end-of-sequence was signalled, up to `fuel` page fetches per
call and `steps` calls of `next`. -/
def IterState.run (src : PageSource) :
    Nat → Nat → IterState → List String × IterState
  | _, 0, s => ([], s)
  | fuel, steps + 1, s =>
    match IterState.next src fuel s with
    | some (some i, s') =>
      let rest := IterState.run src fuel steps s'
      (i :: rest.1, rest.2)
    | some (none, s') => ([], s')
    | none => ([], s)

/-- Modelled from the spec: `Batch.submit()` — serializes the recorded
requests into one multipart call through the base connection (`conn` maps
the request list to the list of response parts the server returned),
checks the part count against the request count, and only then assigns
`response[i]` to `request[i]` positionally and seals the batch.  On a count
mismatch (or a resubmission) the batch is returned unchanged with the
error. -/
def Batch.submit (conn : List BatchRequest → List BatchResponse) (b : Batch) :
    Batch × Except String Unit :=
  if b.submitted then
    (b, Except.error "Batch already submitted")
  else
    let parts := conn b.requests
    if parts.length = b.requests.length then
      ({ b with responses := parts, submitted := true }, Except.ok ())
    else
      (b, Except.error "MismatchedResponseCount")

theorem applyOps_specStack (ops : List BatchOp) :
    ∀ c c' : Client, applyOps c ops = some c' →
      specStack c.batch_stack ops = some c'.batch_stack := by
  induction ops with
  | nil =>
    intro c c' h
    simp [applyOps] at h
    subst h
    simp [specStack]
  | cons op ops ih =>
    intro c c' h
    cases op with
    | push b =>
      simp only [applyOps] at h
      simpa [specStack, Client.push_batch] using ih _ _ h
    | pop =>
      cases hs : c.batch_stack with
      | nil => simp [applyOps, Client.pop_batch, hs] at h
      | cons b rest =>
        simp only [applyOps, Client.pop_batch, hs] at h
        simpa [specStack, hs] using ih _ _ h

/-- C1: the `_connection` getter resolves to the top-of-stack batch when the
batch stack is non-empty and to the base connection when it is empty; and
over any LIFO-valid sequence of `_push_batch`/`_pop_batch` calls, the batch
stack tracks the mathematical stack, so `current_batch` is its head — the
most recently pushed, not-yet-popped batch — and `None` when empty. -/
theorem c1_connection_routing :
    (∀ c : Client, c.batch_stack = [] →
        c.connectionGet = Client.Routed.toBase c.base_connection ∧
        c.current_batch = none) ∧
    (∀ (c : Client) (b : Batch) (rest : List Batch), c.batch_stack = b :: rest →
        c.connectionGet = Client.Routed.toBatch b ∧ c.current_batch = some b) ∧
    (∀ (c c' : Client) (ops : List BatchOp), applyOps c ops = some c' →
        specStack c.batch_stack ops = some c'.batch_stack ∧
        c'.current_batch = c'.batch_stack.head?) := by
  refine ⟨?_, ?_, ?_⟩
  · intro c h
    simp [Client.connectionGet, Client.current_batch, h]
  · intro c b rest h
    simp [Client.connectionGet, Client.current_batch, h]
  · intro c c' ops h
    exact ⟨applyOps_specStack ops c c' h, rfl⟩

/-- A concrete batch used by witnesses. -/
def demoBatch : Batch := Batch.new 0

/-- A concrete client (base connection set, empty batch stack) used by
witnesses. -/
def demoClient : Client :=
  { id := 0, project := "demo-project", base_connection := some 7,
    batch_stack := [] }

theorem c1_connection_routing_witness :
    demoClient.connectionGet = Client.Routed.toBase demoClient.base_connection ∧
    (demoClient.push_batch demoBatch).connectionGet =
      Client.Routed.toBatch demoBatch ∧
    specStack demoClient.batch_stack [BatchOp.push demoBatch, BatchOp.pop] =
      some demoClient.batch_stack :=
  ⟨(c1_connection_routing.1 demoClient rfl).1,
   (c1_connection_routing.2.1 (demoClient.push_batch demoBatch) demoBatch []
      rfl).1,
   by
    have h := (c1_connection_routing.2.2 demoClient demoClient
      [BatchOp.push demoBatch, BatchOp.pop] rfl).1
    exact h⟩

/-- C2: once the base connection is set, setting it again raises
`ValueError` (AlreadySet) and leaves the client — in particular the first
connection value — unchanged. -/
theorem c2_connection_set_twice (c : Client) (w value : Nat)
    (h : c.base_connection = some w) :
    c.connectionSet value = (c, Except.error ClientError.alreadySet) ∧
    (c.connectionSet value).1.base_connection = some w := by
  simp [Client.connectionSet, h]

theorem c2_connection_set_twice_witness :
    demoClient.connectionSet 9 =
      (demoClient, Except.error ClientError.alreadySet) ∧
    (demoClient.connectionSet 9).1.base_connection = some 7 :=
  c2_connection_set_twice demoClient 7 9 rfl

/-- C7: `_pop_batch` on an empty batch stack fails with underflow
(`IndexError`) and returns no batch; on a non-empty stack it removes and
returns the top-most batch. -/
theorem c7_pop_batch (c : Client) :
    (c.batch_stack = [] → c.pop_batch = Except.error ClientError.underflow) ∧
    (∀ (b : Batch) (rest : List Batch), c.batch_stack = b :: rest →
        c.pop_batch = Except.ok (b, { c with batch_stack := rest })) := by
  constructor
  · intro h
    simp [Client.pop_batch, h]
  · intro b rest h
    simp [Client.pop_batch, h]

theorem c7_pop_batch_witness :
    demoClient.pop_batch = Except.error ClientError.underflow ∧
    (demoClient.push_batch demoBatch).pop_batch =
      Except.ok (demoBatch, demoClient) :=
  ⟨(c7_pop_batch demoClient).1 rfl,
   (c7_pop_batch (demoClient.push_batch demoBatch)).2 demoBatch [] rfl⟩

/-- C9: `bucket(name)` is a pure factory returning a bucket bound to this
client with the given name and empty properties, and `batch()` is a pure
factory returning a fresh batch bound to this client; neither changes the
client state, in particular the batch stack. -/
theorem c9_factories (c : Client) (name : String) :
    c.bucket name =
      ({ client := c.id, name := some name, properties := [] }, c) ∧
    c.batch =
      ({ client := c.id, requests := [], responses := [], submitted := false },
       c) ∧
    (c.batch).2.batch_stack = c.batch_stack ∧
    (c.bucket name).2.batch_stack = c.batch_stack :=
  ⟨rfl, rfl, rfl, rfl⟩

/-- C10: `_item_to_bucket` never fails on an item lacking a `name` key —
it builds a bucket whose name is `None` and still sets the item as the
bucket's properties. -/
theorem c10_item_to_bucket (clientId : Nat) (item : List (String × String))
    (h : lookupKV item "name" = none) :
    item_to_bucket clientId item =
      { client := clientId, name := none, properties := item } := by
  simp [item_to_bucket, Bucket.new, h]

theorem c10_item_to_bucket_witness :
    lookupKV [("id", "bkt-123")] "name" = none ∧
    item_to_bucket 0 [("id", "bkt-123")] =
      { client := 0, name := none, properties := [("id", "bkt-123")] } :=
  ⟨by decide, c10_item_to_bucket 0 [("id", "bkt-123")] (by decide)⟩

/-- C3: `lookup_bucket` behaves exactly as `get_bucket` except that a
`NotFound` failure becomes the `None` result; a success returns the same
bucket, and any non-`NotFound` error propagates unchanged. -/
theorem c3_lookup_bucket (c : Client) (conn : Conn) (name : String) :
    (∀ b : Bucket, c.get_bucket conn name = Except.ok b →
        c.lookup_bucket conn name = Except.ok (some b)) ∧
    (∀ msg : String,
        c.get_bucket conn name = Except.error (CloudError.notFound msg) →
        c.lookup_bucket conn name = Except.ok none) ∧
    (∀ e : CloudError, c.get_bucket conn name = Except.error e →
        (∀ msg : String, e ≠ CloudError.notFound msg) →
        c.lookup_bucket conn name = Except.error e) := by
  refine ⟨?_, ?_, ?_⟩
  · intro b h
    simp [Client.lookup_bucket, h]
  · intro msg h
    simp [Client.lookup_bucket, h]
  · intro e h hne
    cases e with
    | notFound msg => exact absurd rfl (hne msg)
    | conflict msg => simp [Client.lookup_bucket, h]
    | httpError status msg => simp [Client.lookup_bucket, h]

/-- A mock connection that always reports 404 `NotFound`. -/
def conn404 : Conn := fun _ => Except.error (CloudError.notFound "missing")

/-- A mock connection that always reports a 500 error. -/
def conn500 : Conn :=
  fun _ => Except.error (CloudError.httpError 500 "boom")

/-- A mock connection that returns a fixed bucket resource. -/
def connOk : Conn := fun _ => Except.ok [("name", "my-bucket")]

theorem c3_lookup_bucket_witness :
    (demoClient.get_bucket connOk "my-bucket" =
        Except.ok
          { client := 0, name := some "my-bucket",
            properties := [("name", "my-bucket")] } ∧
      demoClient.lookup_bucket connOk "my-bucket" =
        Except.ok
          (some
            { client := 0, name := some "my-bucket",
              properties := [("name", "my-bucket")] })) ∧
    (demoClient.get_bucket conn404 "missing" =
        Except.error (CloudError.notFound "missing") ∧
      demoClient.lookup_bucket conn404 "missing" = Except.ok none) ∧
    (demoClient.get_bucket conn500 "missing" =
        Except.error (CloudError.httpError 500 "boom") ∧
      demoClient.lookup_bucket conn500 "missing" =
        Except.error (CloudError.httpError 500 "boom")) :=
  ⟨⟨rfl, (c3_lookup_bucket demoClient connOk "my-bucket").1 _ rfl⟩,
   ⟨rfl, (c3_lookup_bucket demoClient conn404 "missing").2.1 "missing" rfl⟩,
   ⟨rfl,
    (c3_lookup_bucket demoClient conn500 "missing").2.2
      (CloudError.httpError 500 "boom") rfl (fun _ h => by cases h)⟩⟩

/-- C8: `get_bucket` constructs a bucket bound to this client and issues the
metadata-fetch GET through the resolved connection; a successful fetch
yields that bucket carrying the fetched properties, and any connection
error — `NotFound` included — propagates unchanged. -/
theorem c8_get_bucket (c : Client) (conn : Conn) (name : String) :
    (∀ props : List (String × String),
        conn { method := "GET", path := "/b/" ++ name } = Except.ok props →
        c.get_bucket conn name =
          Except.ok { client := c.id, name := some name, properties := props }) ∧
    (∀ e : CloudError,
        conn { method := "GET", path := "/b/" ++ name } = Except.error e →
        c.get_bucket conn name = Except.error e) := by
  constructor
  · intro props h
    simp [Client.get_bucket, Bucket.reload, Bucket.new, h]
  · intro e h
    simp [Client.get_bucket, Bucket.reload, Bucket.new, h]

theorem c8_get_bucket_witness :
    demoClient.get_bucket connOk "my-bucket" =
      Except.ok
        { client := 0, name := some "my-bucket",
          properties := [("name", "my-bucket")] } ∧
    demoClient.get_bucket conn404 "missing" =
      Except.error (CloudError.notFound "missing") :=
  ⟨(c8_get_bucket demoClient connOk "my-bucket").1 [("name", "my-bucket")] rfl,
   (c8_get_bucket demoClient conn404 "missing").2
     (CloudError.notFound "missing") rfl⟩

/-- C6: `list_buckets` always puts the client's project and the projection
value (default `'noAcl'`) in the query-parameter map, puts `prefix` and
`fields` there exactly when those arguments were supplied, and returns an
iterator over path `/b` bound to this client with `_item_to_bucket` as the
item decoder, which produces buckets bound to this client. -/
theorem c6_list_buckets (c : Client) (max_results : Option Nat)
    (page_token : Option String) (prefix_ projection fields : Option String) :
    lookupKV (c.list_buckets max_results page_token prefix_ projection
        fields).extra_params "project" = some c.project ∧
    lookupKV (c.list_buckets max_results page_token prefix_ projection
        fields).extra_params "projection" = some (projection.getD "noAcl") ∧
    lookupKV (c.list_buckets max_results page_token prefix_ projection
        fields).extra_params "prefix" = prefix_ ∧
    lookupKV (c.list_buckets max_results page_token prefix_ projection
        fields).extra_params "fields" = fields ∧
    (c.list_buckets max_results page_token prefix_ projection fields).path =
      "/b" ∧
    (c.list_buckets max_results page_token prefix_ projection fields).client =
      c.id ∧
    (c.list_buckets max_results page_token prefix_ projection
        fields).item_to_value = item_to_bucket ∧
    (c.list_buckets max_results page_token prefix_ projection
        fields).page_token = page_token ∧
    (c.list_buckets max_results page_token prefix_ projection
        fields).max_results = max_results ∧
    (∀ item : List (String × String),
        (item_to_bucket
          (c.list_buckets max_results page_token prefix_ projection
            fields).client item).client = c.id) := by
  cases prefix_ <;> cases fields <;>
    simp [Client.list_buckets, lookupKV, item_to_bucket, Bucket.new]

/-- C5: a not-yet-submitted batch submitted against a connection returning
exactly as many parts as recorded requests succeeds and assigns
`response[i]` to `request[i]` in strict positional order; if the part count
differs, submit fails with `MismatchedResponseCount` and the batch is left
unchanged — no responses are assigned. -/
theorem c5_batch_submit (b : Batch)
    (conn : List BatchRequest → List BatchResponse)
    (hns : b.submitted = false) :
    ((conn b.requests).length = b.requests.length →
      Batch.submit conn b =
        ({ b with responses := conn b.requests, submitted := true },
         Except.ok ()) ∧
      ∀ i : Nat, (Batch.submit conn b).1.responses.get? i =
        (conn b.requests).get? i) ∧
    ((conn b.requests).length ≠ b.requests.length →
      Batch.submit conn b = (b, Except.error "MismatchedResponseCount") ∧
      (Batch.submit conn b).1.responses = b.responses) := by
  constructor
  · intro hlen
    constructor
    · simp [Batch.submit, hns, hlen]
    · intro i
      simp [Batch.submit, hns, hlen]
  · intro hlen
    constructor
    · simp [Batch.submit, hns, hlen]
    · simp [Batch.submit, hns, hlen]

/-- Three concrete recorded requests for the submit witness. -/
def demoRequests : List BatchRequest :=
  [{ method := "GET", path := "/b/one", queryParams := [], body := none },
   { method := "DELETE", path := "/b/two", queryParams := [], body := none },
   { method := "GET", path := "/b/three", queryParams := [], body := none }]

/-- A concrete unsubmitted batch holding the three demo requests. -/
def demoBatch3 : Batch :=
  { client := 0, requests := demoRequests, responses := [], submitted := false }

/-- Three concrete response parts, matching the demo requests in count. -/
def demoParts3 : List BatchResponse :=
  [{ status := 200, body := "one" }, { status := 204, body := "" },
   { status := 200, body := "three" }]

/-- A mock server returning two parts for any submission. -/
def demoParts2 : List BatchResponse :=
  [{ status := 200, body := "one" }, { status := 204, body := "" }]

theorem c5_batch_submit_witness :
    demoBatch3.submitted = false ∧
    Batch.submit (fun _ => demoParts3) demoBatch3 =
      ({ demoBatch3 with responses := demoParts3, submitted := true },
       Except.ok ()) ∧
    (Batch.submit (fun _ => demoParts3) demoBatch3).1.responses.get? 1 =
      some { status := 204, body := "" } ∧
    Batch.submit (fun _ => demoParts2) demoBatch3 =
      (demoBatch3, Except.error "MismatchedResponseCount") ∧
    (Batch.submit (fun _ => demoParts2) demoBatch3).1.responses = [] :=
  ⟨rfl,
   ((c5_batch_submit demoBatch3 (fun _ => demoParts3) rfl).1 (by decide)).1,
   by
    have h :=
      ((c5_batch_submit demoBatch3 (fun _ => demoParts3) rfl).1 (by decide)).2 1
    simpa using h,
   ((c5_batch_submit demoBatch3 (fun _ => demoParts2) rfl).2 (by decide)).1,
   ((c5_batch_submit demoBatch3 (fun _ => demoParts2) rfl).2 (by decide)).2⟩

theorem iterNext_stop_token (src : PageSource) :
    ∀ (fuel : Nat) (s s' : IterState),
      IterState.next src fuel s = some (none, s') →
      s'.token = none ∧ s'.queue = [] := by
  intro fuel
  induction fuel with
  | zero =>
    intro s s' h
    obtain ⟨q, tok, st⟩ := s
    cases q with
    | cons i rest => simp [IterState.next] at h
    | nil =>
      simp only [IterState.next] at h
      split at h
      · rename_i hc
        obtain ⟨rfl⟩ := Option.some.inj h
        exact ⟨hc.2, rfl⟩
      · cases h
  | succ fuel ih =>
    intro s s' h
    obtain ⟨q, tok, st⟩ := s
    cases q with
    | cons i rest => simp [IterState.next] at h
    | nil =>
      simp only [IterState.next] at h
      split at h
      · rename_i hc
        obtain ⟨rfl⟩ := Option.some.inj h
        exact ⟨hc.2, rfl⟩
      · exact ih _ _ h

/-- The three fixed pages of the C4 scenario: the first fetch (no token)
returns items `A`, `B` with token `t1`; token `t1` returns no items with
token `t2`; token `t2` returns item `C` with no further token. -/
def threePages : PageSource := fun tok =>
  match tok with
  | none => { items := ["A", "B"], nextPageToken := some "t1" }
  | some "t1" => { items := [], nextPageToken := some "t2" }
  | some "t2" => { items := ["C"], nextPageToken := none }
  | some _ => { items := [], nextPageToken := none }

/-- C4: the iterator never signals end-of-sequence while it still holds a
continuation token — a genuine stop happens only in a state whose token is
absent and whose queue is empty — and fed the three fixed pages (items
`[A,B]` with token `t1`, then no items with token `t2`, then `[C]` with no
token) it yields exactly `A, B, C` and then signals end-of-sequence. -/
theorem c4_pagination_iterator :
    (∀ (src : PageSource) (fuel : Nat) (s s' : IterState),
        IterState.next src fuel s = some (none, s') →
        s'.token = none ∧ s'.queue = []) ∧
    (IterState.run threePages 10 10 (IterState.initial none)).1 =
      ["A", "B", "C"] ∧
    IterState.next threePages 10
        (IterState.run threePages 10 10 (IterState.initial none)).2 =
      some (none, { queue := [], token := none, started := true }) := by
  refine ⟨iterNext_stop_token, ?_, ?_⟩ <;> decide

theorem c4_pagination_iterator_witness :
    IterState.next threePages 10
        { queue := [], token := none, started := true } =
      some (none, { queue := [], token := none, started := true }) ∧
    ({ queue := [], token := none, started := true } : IterState).token =
      none :=
  ⟨by decide,
   (c4_pagination_iterator.1 threePages 10
      { queue := [], token := none, started := true }
      { queue := [], token := none, started := true } (by decide)).1⟩
